import Mathlib

/-!
# Formal model of the kissLIB KISS framing library

A shallow embedding of `src/kissLIB.c` (version 2.0.0).  Machine integers are
modelled as `Nat`:

* bytes are `Nat`s (the C code only ever compares them against the constants
  below and stores them; stored bytes produced by the library are `< 256`);
* `uint32_t` CRC values are `Nat`s kept below `2 ^ 32` by construction
  (`x >>> 8` and XOR with table entries preserve the bound), so the C
  complement `~crc` is `crc ^^^ 0xFFFFFFFF`;
* `size_t` lengths and sizes are `Nat`s.

The instance working buffer `kiss->buffer` together with `kiss->index` is
modelled as the list of the `index` meaningful bytes: every path of
`kiss_encode`/`kiss_push_encode` writes exactly at `kiss->buffer[kiss->index]`
and then increments `kiss->index`, which on the list model is appending one
element, and the decoder only reads `buffer[0 .. index)`.  NULL-pointer
checks of the C code are dropped: the model always receives its arguments.
`kiss_receive_frame` is modelled separately with the buffer as a total
function `Nat -> Nat` because that function indexes the raw memory with
offsets that are not bounded by `buffer_size`.
-/

namespace KissLib

/-! ## Protocol constants (`kissLIB.h`) -/

def KISS_FEND : Nat := 0xC0
def KISS_FESC : Nat := 0xDB
def KISS_TFEND : Nat := 0xDC
def KISS_TFESC : Nat := 0xDD

def KISS_OK : Nat := 0
def KISS_ERR_INVALID_PARAMS : Nat := 1
def KISS_ERR_INVALID_FRAME : Nat := 2
def KISS_ERR_BUFFER_OVERFLOW : Nat := 3
def KISS_ERR_NO_DATA_RECEIVED : Nat := 4
def KISS_ERR_DATA_NOT_ENCODED : Nat := 5
def KISS_ERR_CRC32_MISMATCH : Nat := 6
def KISS_ERR_CALLBACK_MISSING : Nat := 7
def KISS_ERR_HEADER_ESCAPE : Nat := 8
def KISS_ERR_STATUS : Nat := 9
def KISS_ERR_PADDING_OVERFLOW : Nat := 10

def KISS_STATUS_NOTHING : Nat := 0x00
def KISS_STATUS_TRANSMITTING : Nat := 0x01
def KISS_STATUS_TRANSMITTED : Nat := 0x02
def KISS_STATUS_RECEIVING : Nat := 0x03
def KISS_STATUS_RECEIVED : Nat := 0x04
def KISS_STATUS_RECEIVED_ERROR : Nat := 0x05
def KISS_STATUS_ERROR_STATE : Nat := 0x06

def KISS_HEADER_REQUEST_PARAM : Nat := 0x40
def KISS_HEADER_SET_PARAM : Nat := 0x50

/-! ## CRC32 engine (`kiss_crc32`, `kiss_crc32_push`, `kiss_verify_crc32`)

The 256-entry IEEE 802.3 lookup table is transcribed verbatim from
`kissLIB.c` (the non-Arduino copy). -/

def kiss_CRC32_Table : List Nat := [
    0x00000000, 0x77073096, 0xEE0E612C, 0x990951BA, 0x076DC419, 0x706AF48F, 0xE963A535, 0x9E6495A3,
    0x0EDB8832, 0x79DCB8A4, 0xE0D5E91E, 0x97D2D988, 0x09B64C2B, 0x7EB17CBD, 0xE7B82D07, 0x90BF1D91,
    0x1DB71064, 0x6AB020F2, 0xF3B97148, 0x84BE41DE, 0x1ADAD47D, 0x6DDDE4EB, 0xF4D4B551, 0x83D385C7,
    0x136C9856, 0x646BA8C0, 0xFD62F97A, 0x8A65C9EC, 0x14015C4F, 0x63066CD9, 0xFA0F3D63, 0x8D080DF5,
    0x3B6E20C8, 0x4C69105E, 0xD56041E4, 0xA2677172, 0x3C03E4D1, 0x4B04D447, 0xD20D85FD, 0xA50AB56B,
    0x35B5A8FA, 0x42B2986C, 0xDBBBC9D6, 0xACBCF940, 0x32D86CE3, 0x45DF5C75, 0xDCD60DCF, 0xABD13D59,
    0x26D930AC, 0x51DE003A, 0xC8D75180, 0xBFD06116, 0x21B4F4B5, 0x56B3C423, 0xCFBA9599, 0xB8BDA50F,
    0x2802B89E, 0x5F058808, 0xC60CD9B2, 0xB10BE924, 0x2F6F7C87, 0x58684C11, 0xC1611DAB, 0xB6662D3D,
    0x76DC4190, 0x01DB7106, 0x98D220BC, 0xEFD5102A, 0x71B18589, 0x06B6B51F, 0x9FBFE4A5, 0xE8B8D433,
    0x7807C9A2, 0x0F00F934, 0x9609A88E, 0xE10E9818, 0x7F6A0DBB, 0x086D3D2D, 0x91646C97, 0xE6635C01,
    0x6B6B51F4, 0x1C6C6162, 0x856530D8, 0xF262004E, 0x6C0695ED, 0x1B01A57B, 0x8208F4C1, 0xF50FC457,
    0x65B0D9C6, 0x12B7E950, 0x8BBEB8EA, 0xFCB9887C, 0x62DD1DDF, 0x15DA2D49, 0x8CD37CF3, 0xFBD44C65,
    0x4DB26158, 0x3AB551CE, 0xA3BC0074, 0xD4BB30E2, 0x4ADFA541, 0x3DD895D7, 0xA4D1C46D, 0xD3D6F4FB,
    0x4369E96A, 0x346ED9FC, 0xAD678846, 0xDA60B8D0, 0x44042D73, 0x33031DE5, 0xAA0A4C5F, 0xDD0D7CC9,
    0x5005713C, 0x270241AA, 0xBE0B1010, 0xC90C2086, 0x5768B525, 0x206F85B3, 0xB966D409, 0xCE61E49F,
    0x5EDEF90E, 0x29D9C998, 0xB0D09822, 0xC7D7A8B4, 0x59B33D17, 0x2EB40D81, 0xB7BD5C3B, 0xC0BA6CAD,
    0xEDB88320, 0x9ABFB3B6, 0x03B6E20C, 0x74B1D29A, 0xEAD54739, 0x9DD277AF, 0x04DB2615, 0x73DC1683,
    0xE3630B12, 0x94643B84, 0x0D6D6A3E, 0x7A6A5AA8, 0xE40ECF0B, 0x9309FF9D, 0x0A00AE27, 0x7D079EB1,
    0xF00F9344, 0x8708A3D2, 0x1E01F268, 0x6906C2FE, 0xF762575D, 0x806567CB, 0x196C3671, 0x6E6B06E7,
    0xFED41B76, 0x89D32BE0, 0x10DA7A5A, 0x67DD4ACC, 0xF9B9DF6F, 0x8EBEEFF9, 0x17B7BE43, 0x60B08ED5,
    0xD6D6A3E8, 0xA1D1937E, 0x38D8C2C4, 0x4FDFF252, 0xD1BB67F1, 0xA6BC5767, 0x3FB506DD, 0x48B2364B,
    0xD80D2BDA, 0xAF0A1B4C, 0x36034AF6, 0x41047A60, 0xDF60EFC3, 0xA867DF55, 0x316E8EEF, 0x4669BE79,
    0xCB61B38C, 0xBC66831A, 0x256FD2A0, 0x5268E236, 0xCC0C7795, 0xBB0B4703, 0x220216B9, 0x5505262F,
    0xC5BA3BBE, 0xB2BD0B28, 0x2BB45A92, 0x5CB36A04, 0xC2D7FFA7, 0xB5D0CF31, 0x2CD99E8B, 0x5BDEAE1D,
    0x9B64C2B0, 0xEC63F226, 0x756AA39C, 0x026D930A, 0x9C0906A9, 0xEB0E363F, 0x72076785, 0x05005713,
    0x95BF4A82, 0xE2B87A14, 0x7BB12BAE, 0x0CB61B38, 0x92D28E9B, 0xE5D5BE0D, 0x7CDCEFB7, 0x0BDBDF21,
    0x86D3D2D4, 0xF1D4E242, 0x68DDB3F8, 0x1FDA836E, 0x81BE16CD, 0xF6B9265B, 0x6FB077E1, 0x18B74777,
    0x88085AE6, 0xFF0F6A70, 0x66063BCA, 0x11010B5C, 0x8F659EFF, 0xF862AE69, 0x616BFFD3, 0x166CCF45,
    0xA00AE278, 0xD70DD2EE, 0x4E048354, 0x3903B3C2, 0xA7672661, 0xD06016F7, 0x4969474D, 0x3E6E77DB,
    0xAED16A4A, 0xD9D65ADC, 0x40DF0B66, 0x37D83BF0, 0xA9BCAE53, 0xDEBB9EC5, 0x47B2CF7F, 0x30B5FFE9,
    0xBDBDF21C, 0xCABAC28A, 0x53B39330, 0x24B4A3A6, 0xBAD03605, 0xCDD70693, 0x54DE5729, 0x23D967BF,
    0xB3667A2E, 0xC4614AB8, 0x5D681B02, 0x2A6F2B94, 0xB40BBE37, 0xC30C8EA1, 0x5A05DF1B, 0x2D02EF8D
]

/-- One step of the table-driven CRC loop:
`crc = (crc >> 8) ^ kiss_CRC32_Table[(crc ^ byte) & 0xFF]`. -/
def crc32_step (crc b : Nat) : Nat :=
  (crc >>> 8) ^^^ kiss_CRC32_Table.getD ((crc ^^^ b) &&& 0xFF) 0

/-- `kiss_crc32`: seed `0xFFFFFFFF`, table loop, final complement
(`~crc` on a `uint32_t` value is XOR with `0xFFFFFFFF`). -/
def kiss_crc32 (data : List Nat) : Nat :=
  (data.foldl crc32_step 0xFFFFFFFF) ^^^ 0xFFFFFFFF

/-- `kiss_crc32_push`: a previous value of `0` is re-seeded to `0xFFFFFFFF`
(`prev_crc ^ 0xFFFFFFFF` with `prev_crc == 0`); the result is returned
without the final complement. -/
def kiss_crc32_push (prev_crc : Nat) (data : List Nat) : Nat :=
  data.foldl crc32_step (if prev_crc = 0 then 0xFFFFFFFF else prev_crc)

/-- `kiss_verify_crc32`: `KISS_OK` iff the expected value equals the one-shot
checksum of `data`, otherwise `1`. -/
def kiss_verify_crc32 (data : List Nat) (expected_crc : Nat) : Nat :=
  if expected_crc = kiss_crc32 data then KISS_OK else 1

/-! ## Link instance (`kiss_instance_t`)

Only the fields the modelled operations touch are kept: the meaningful
buffer bytes (`buffer[0 .. index)`, so `index = buffer.length`), the
capacity `buffer_size` and the `Status` byte.  `TXdelay`, the callbacks,
`context` and `padding` do not influence the encode/decode paths. -/

structure Kiss where
  buffer : List Nat
  buffer_size : Nat
  status : Nat
deriving DecidableEq, Repr

/-! ## Escaper/Framer: encoding (`kiss_encode`, `kiss_push_encode`) -/

/-- Specification-side byte stuffing: `FEND -> FESC TFEND`, `FESC -> FESC TFESC`,
anything else is copied.  This is the sequence of bytes the payload loop of
`kiss_encode` emits for one input byte. -/
def stuffByte (b : Nat) : List Nat :=
  if b = KISS_FEND then [KISS_FESC, KISS_TFEND]
  else if b = KISS_FESC then [KISS_FESC, KISS_TFESC]
  else [b]

/-- Stuffing of a whole payload. -/
def stuff : List Nat -> List Nat
  | [] => []
  | b :: rest => stuffByte b ++ stuff rest

/-- The shared payload loop of `kiss_encode` (lines 245-288) and
`kiss_push_encode` (lines 357-396); the two C loops are textually identical.
Each byte is appended (stuffed if special) after the corresponding
capacity check `kiss->index + n > kiss->buffer_size`; the first shortfall
aborts with `KISS_ERR_BUFFER_OVERFLOW`, leaving the partially filled
buffer.  The caller turns a failure into `Status = ERROR_STATE`. -/
def kiss_encode_loop (bs : Nat) : List Nat -> List Nat -> Nat × List Nat
  | [], buf => (KISS_OK, buf)
  | b :: rest, buf =>
    if b = KISS_FEND then
      if bs < buf.length + 2 then (KISS_ERR_BUFFER_OVERFLOW, buf)
      else kiss_encode_loop bs rest (buf ++ [KISS_FESC, KISS_TFEND])
    else if b = KISS_FESC then
      if bs < buf.length + 2 then (KISS_ERR_BUFFER_OVERFLOW, buf)
      else kiss_encode_loop bs rest (buf ++ [KISS_FESC, KISS_TFESC])
    else
      if bs < buf.length + 1 then (KISS_ERR_BUFFER_OVERFLOW, buf)
      else kiss_encode_loop bs rest (buf ++ [b])

/-- The unguarded prefix `kiss_encode` writes before the payload loop: the
opening `FEND` followed by the header byte, itself stuffed when it collides
with `FESC`/`FEND` (kissLIB.c lines 220-242). -/
def kiss_headerBytes (header : Nat) : List Nat :=
  if header = KISS_FESC then [KISS_FEND, KISS_FESC, KISS_TFESC]
  else if header = KISS_FEND then [KISS_FEND, KISS_FESC, KISS_TFEND]
  else [KISS_FEND, header]

/-- `kiss_encode` (kissLIB.c lines 203-303).  After the parameter checks the
index is reset to `0`; `FEND` and the (possibly escaped) header byte are
written unguarded — safe because `buffer_size >= 3` was checked; then the
payload loop runs and the terminating `FEND` is written after one more
capacity check.  Success sets `Status = TRANSMITTING`; any overflow sets
`Status = ERROR_STATE` and returns `KISS_ERR_BUFFER_OVERFLOW`. -/
def kiss_encode (k : Kiss) (data : List Nat) (header : Nat) : Nat × Kiss :=
  if k.buffer_size < 3 then (KISS_ERR_BUFFER_OVERFLOW, k)
  else
    let r := kiss_encode_loop k.buffer_size data (kiss_headerBytes header)
    if r.1 ≠ KISS_OK then (r.1, { k with buffer := r.2, status := KISS_STATUS_ERROR_STATE })
    else if k.buffer_size < r.2.length + 1 then
      (KISS_ERR_BUFFER_OVERFLOW, { k with buffer := r.2, status := KISS_STATUS_ERROR_STATE })
    else (KISS_OK, { k with buffer := r.2 ++ [KISS_FEND], status := KISS_STATUS_TRANSMITTING })

/-- `kiss_push_encode` (kissLIB.c lines 325-408).  Guards: non-empty data
(`0 == length` is `INVALID_PARAMS`), not in `ERROR_STATE`
(else `KISS_ERR_STATUS`), status must be `TRANSMITTING`, `index` non-zero;
the byte at `index-1` must be the frame terminator `FEND`, which is
rewound (`kiss->index--`, i.e. `dropLast`); then the shared payload loop
appends the new data and the terminator is rewritten.  No CRC handling of
any kind happens here. -/
def kiss_push_encode (k : Kiss) (data : List Nat) : Nat × Kiss :=
  if data.length = 0 then (KISS_ERR_INVALID_PARAMS, k)
  else if k.status = KISS_STATUS_ERROR_STATE then (KISS_ERR_STATUS, k)
  else if k.status ≠ KISS_STATUS_TRANSMITTING then (KISS_ERR_INVALID_PARAMS, k)
  else if k.buffer.length = 0 then (KISS_ERR_INVALID_PARAMS, k)
  else if k.buffer.getLast? = some KISS_FEND then
    let r := kiss_encode_loop k.buffer_size data k.buffer.dropLast
    if r.1 ≠ KISS_OK then (r.1, { k with buffer := r.2, status := KISS_STATUS_ERROR_STATE })
    else if k.buffer_size < r.2.length + 1 then
      (KISS_ERR_BUFFER_OVERFLOW, { k with buffer := r.2, status := KISS_STATUS_ERROR_STATE })
    else (KISS_OK, { k with buffer := r.2 ++ [KISS_FEND] })
  else (KISS_ERR_INVALID_FRAME, { k with status := KISS_STATUS_ERROR_STATE })

/-- `kiss_encode_crc32` (kissLIB.c lines 1389-1432).  After a successful
`kiss_encode` the C code sets `kiss->Status = KISS_STATUS_NOTHING`
(line 1404), computes the CRC32 of the raw payload, checks for an
`ERROR_STATE` left by `kiss_crc32` (impossible here: `data` is non-NULL),
and then calls `kiss_push_encode` with the 4 little-endian CRC bytes —
which is still in status `NOTHING`, not `TRANSMITTING`. -/
def kiss_encode_crc32 (k : Kiss) (data : List Nat) (header : Nat) : Nat × Kiss :=
  if data.length = 0 then (KISS_ERR_INVALID_PARAMS, k)
  else
    let r := kiss_encode k data header
    if r.1 ≠ KISS_OK then (r.1, r.2)
    else
      let k2 := { r.2 with status := KISS_STATUS_NOTHING }
      let crc := kiss_crc32 data
      if k2.status = KISS_STATUS_ERROR_STATE then (KISS_ERR_STATUS, k2)
      else
        let crc_b : List Nat :=
          [crc &&& 0xFF, (crc >>> 8) &&& 0xFF, (crc >>> 16) &&& 0xFF, (crc >>> 24) &&& 0xFF]
        let r2 := kiss_push_encode k2 crc_b
        if r2.1 ≠ KISS_OK then (r2.1, r2.2)
        else (KISS_OK, { r2.2 with status := KISS_STATUS_TRANSMITTING })

/-! ## Escaper/Framer: decoding (`kiss_decode`, `kiss_decode_crc32`,
`kiss_extract_param`) -/

/-- The `while (src < src_end && KISS_FEND == *src) src++;` padding skip at
the start of `kiss_decode`. -/
def skipFend : List Nat -> List Nat
  | [] => []
  | b :: rest => if b = KISS_FEND then skipFend rest else b :: rest

/-- Result of `kiss_decode`: the return code, the bytes written to `output`
(`*output_length` equals `output.length` on the paths that set it), the
value written through the `header` pointer (`none` when the C code returns
before assigning it) and the instance status after the call. -/
structure DecodeRes where
  err : Nat
  output : List Nat
  hdr : Option Nat
  status : Nat
deriving DecidableEq, Repr

/-- The payload loop of `kiss_decode` (kissLIB.c lines 505-552).  A bare
`FEND` terminates the frame; `FESC` must be followed by `TFEND`/`TFESC`
(else `INVALID_FRAME` with `Status = ERROR_STATE`; the same if the buffer
ends right after `FESC`); the unstuffed byte is stored only if the output
buffer has room, otherwise `KISS_ERR_BUFFER_OVERFLOW` is returned with the
status untouched (it stays `RECEIVED`).  The third component is the status
after the loop. -/
def kiss_decode_loop (cap : Nat) : List Nat -> List Nat -> Nat × List Nat × Nat
  | [], acc => (KISS_OK, acc, KISS_STATUS_RECEIVED)
  | b :: rest, acc =>
    if b = KISS_FEND then (KISS_OK, acc, KISS_STATUS_RECEIVED)
    else if b = KISS_FESC then
      match rest with
      | [] => (KISS_ERR_INVALID_FRAME, acc, KISS_STATUS_ERROR_STATE)
      | v :: rest2 =>
        if v = KISS_TFEND then
          if cap ≤ acc.length then (KISS_ERR_BUFFER_OVERFLOW, acc, KISS_STATUS_RECEIVED)
          else kiss_decode_loop cap rest2 (acc ++ [KISS_FEND])
        else if v = KISS_TFESC then
          if cap ≤ acc.length then (KISS_ERR_BUFFER_OVERFLOW, acc, KISS_STATUS_RECEIVED)
          else kiss_decode_loop cap rest2 (acc ++ [KISS_FESC])
        else (KISS_ERR_INVALID_FRAME, acc, KISS_STATUS_ERROR_STATE)
    else
      if cap ≤ acc.length then (KISS_ERR_BUFFER_OVERFLOW, acc, KISS_STATUS_RECEIVED)
      else kiss_decode_loop cap rest (acc ++ [b])

/-- Wrapper: run the payload loop with the header already decoded and
written through the `header` pointer. -/
def kiss_decode_payload (cap : Nat) (hdr : Nat) (src : List Nat) : DecodeRes :=
  ⟨(kiss_decode_loop cap src []).1, (kiss_decode_loop cap src []).2.1,
    some hdr, (kiss_decode_loop cap src []).2.2⟩

/-- `kiss_decode` (kissLIB.c lines 431-558).  Requires `Status == RECEIVED`
(else `KISS_ERR_STATUS`, nothing decoded, status unchanged); skips leading
`FEND` padding; an empty remainder is `INVALID_FRAME` (`ERROR_STATE`); the
first byte is the header, unstuffed if escaped (an illegal or truncated
escape is `INVALID_FRAME` / `ERROR_STATE`); then the payload loop runs.
The `val == FEND` branch after the skip loop is kept from the C code even
though `skipFend` makes it unreachable. -/
def kiss_decode (k : Kiss) (cap : Nat) : DecodeRes :=
  if k.status ≠ KISS_STATUS_RECEIVED then ⟨KISS_ERR_STATUS, [], none, k.status⟩
  else
    match skipFend k.buffer with
    | [] => ⟨KISS_ERR_INVALID_FRAME, [], none, KISS_STATUS_ERROR_STATE⟩
    | val :: rest =>
      if val = KISS_FESC then
        match rest with
        | [] => ⟨KISS_ERR_INVALID_FRAME, [], none, KISS_STATUS_ERROR_STATE⟩
        | v :: rest2 =>
          if v = KISS_TFEND then kiss_decode_payload cap KISS_FEND rest2
          else if v = KISS_TFESC then kiss_decode_payload cap KISS_FESC rest2
          else ⟨KISS_ERR_INVALID_FRAME, [], none, KISS_STATUS_ERROR_STATE⟩
      else if val = KISS_FEND then ⟨KISS_OK, [], none, KISS_STATUS_RECEIVED⟩
      else kiss_decode_payload cap val rest

/-- `kiss_decode_crc32` (kissLIB.c lines 1457-1516).  Requires
`Status == RECEIVED` (else `KISS_ERR_NO_DATA_RECEIVED`) and `index >= 4`;
then the C code sets `kiss->Status = KISS_STATUS_NOTHING` (line 1473) and
calls `kiss_decode` — whose own gate demands `RECEIVED`.  On a decode
error the status becomes `ERROR_STATE` and the error is propagated.  The
remaining branches split off the trailing 4 little-endian CRC bytes and
verify them against `kiss_crc32` of the rest; `payload` is the output
truncated to the reported `*output_length`. -/
def kiss_decode_crc32 (k : Kiss) (cap : Nat) : DecodeRes :=
  if k.status ≠ KISS_STATUS_RECEIVED then ⟨KISS_ERR_NO_DATA_RECEIVED, [], none, k.status⟩
  else if k.buffer.length < 4 then ⟨KISS_ERR_INVALID_FRAME, [], none, k.status⟩
  else
    let d := kiss_decode { k with status := KISS_STATUS_NOTHING } cap
    if d.err ≠ KISS_OK then ⟨d.err, d.output, d.hdr, KISS_STATUS_ERROR_STATE⟩
    else if cap < d.output.length then ⟨KISS_ERR_BUFFER_OVERFLOW, d.output, d.hdr, KISS_STATUS_RECEIVED_ERROR⟩
    else if d.output.length < 4 then ⟨KISS_ERR_INVALID_FRAME, d.output, d.hdr, KISS_STATUS_RECEIVED_ERROR⟩
    else
      let pl := d.output.length - 4
      let received_crc :=
        d.output.getD pl 0 ||| (d.output.getD (pl+1) 0 <<< 8) |||
        (d.output.getD (pl+2) 0 <<< 16) ||| (d.output.getD (pl+3) 0 <<< 24)
      if kiss_verify_crc32 (d.output.take pl) received_crc ≠ KISS_OK then
        ⟨KISS_ERR_CRC32_MISMATCH, d.output.take pl, d.hdr, KISS_STATUS_RECEIVED_ERROR⟩
      else ⟨KISS_OK, d.output.take pl, d.hdr, KISS_STATUS_RECEIVED⟩

/-- Result of `kiss_extract_param`: return code, `*ID`, the bytes copied to
`param` and `*param_length` (`0`/`[]` stand for "left untouched" on the
error paths, where the C code never writes them). -/
structure ExtractRes where
  err : Nat
  pid : Nat
  par : List Nat
  parLen : Nat
deriving DecidableEq, Repr

/-- `kiss_extract_param` (kissLIB.c lines 1769-1814).  Requires
`Status == RECEIVED`; decodes through the fixed 256-byte stack scratch
buffer `out[256]` (so `kiss_decode` runs with capacity 256 regardless of
`max_param_size`); requires header `SET_PARAM` or `REQUEST_PARAM` and at
least 2 decoded bytes; `*ID` is little-endian from the first two bytes;
the copy loop `for(i = 2; i < out_len && index < max_param_size; i++)`
copies `min (out_len - 2) max_param_size` value bytes.  The copy is
guarded by `max_param_size > 0` (the non-NULL pointer guards are dropped
in the model). -/
def kiss_extract_param (k : Kiss) (max_param_size : Nat) : ExtractRes :=
  if k.status ≠ KISS_STATUS_RECEIVED then ⟨KISS_ERR_NO_DATA_RECEIVED, 0, [], 0⟩
  else
    let d := kiss_decode k 256
    if d.err ≠ KISS_OK then ⟨d.err, 0, [], 0⟩
    else if (d.hdr ≠ some KISS_HEADER_SET_PARAM ∧ d.hdr ≠ some KISS_HEADER_REQUEST_PARAM)
        ∨ d.output.length < 2 then ⟨KISS_ERR_INVALID_FRAME, 0, [], 0⟩
    else
      let pid := d.output.getD 0 0 ||| (d.output.getD 1 0 <<< 8)
      if 0 < max_param_size then
        ⟨KISS_OK, pid, (d.output.drop 2).take max_param_size,
          min (d.output.length - 2) max_param_size⟩
      else ⟨KISS_OK, pid, [], 0⟩

/-! ## Frame assembler (`kiss_receive_frame`)

Modelled with the working buffer as a total function `Nat -> Nat` (the raw
memory starting at `kiss->buffer`), because the C code indexes it with
offsets that are not kept below `buffer_size`.  The transport `read`
callback is an oracle `Nat -> Nat × List Nat`: for each attempt number the
status it returns and the bytes it stores (the C call passes
`&kiss->buffer[new_index]` as destination and `kiss->buffer_size` as
`dataLen`, so a contract-honouring callback may store up to `buffer_size`
bytes each time). -/

/-- Pointwise store `buf[pos] = v`. -/
def updateFn (buf : Nat -> Nat) (pos v : Nat) : Nat -> Nat :=
  fun j => if j = pos then v else buf j

/-- Store a block of bytes at offset `pos` (what one `read` callback
invocation does to the memory). -/
def writeBytes (buf : Nat -> Nat) (pos : Nat) (bytes : List Nat) : Nat -> Nat :=
  fun j => if pos ≤ j ∧ j < pos + bytes.length then bytes.getD (j - pos) 0 else buf j

/-- Outcome of the inner scan loop: either an early `return` from
`kiss_receive_frame` (with the values assigned to `kiss->index` and
`kiss->Status`), or fall-through to the next read attempt. -/
inductive ScanRes where
  | ret (err index status : Nat) (buf : Nat -> Nat)
  | cont (buf : Nat -> Nat) (frame_started : Bool) (new_index : Nat)

/-- The scan `for(size_t i = new_index; i < kiss->index; i++)` of
`kiss_receive_frame` (kissLIB.c lines 740-789), with `steps` the number of
remaining iterations (`kiss->index - i`).  Before the frame starts,
everything up to the first `FEND` is discarded; once started, further
`FEND`s while `new_index <= 1` (and `i > 0`) are treated as sync padding;
any other byte is compacted to position `new_index`; a `FEND` after that
ends the frame: shorter than 3 bytes is `INVALID_FRAME`/`ERROR_STATE`,
otherwise `KISS_OK`/`RECEIVED`, in both cases with `kiss->index` set to
the compacted length. -/
def rx_scan (buf : Nat -> Nat) (fs : Bool) (ni i : Nat) : Nat -> ScanRes
  | 0 => .cont buf fs ni
  | steps+1 =>
    if fs then
      if 0 < i ∧ buf i = KISS_FEND ∧ ni ≤ 1 then rx_scan buf fs ni (i+1) steps
      else
        let buf2 := updateFn buf ni (buf i)
        if buf i = KISS_FEND then
          if ni + 1 < 3 then .ret KISS_ERR_INVALID_FRAME (ni+1) KISS_STATUS_ERROR_STATE buf2
          else .ret KISS_OK (ni+1) KISS_STATUS_RECEIVED buf2
        else rx_scan buf2 fs (ni+1) (i+1) steps
    else
      if buf i = KISS_FEND then rx_scan (updateFn buf ni (buf i)) true (ni+1) (i+1) steps
      else rx_scan buf fs ni (i+1) steps

/-- Final state of `kiss_receive_frame`: return code, `kiss->index`,
`kiss->Status`, the number of `read` callback invocations made, and the
memory. -/
structure RxFinal where
  err : Nat
  index : Nat
  status : Nat
  attempts : Nat
  buf : Nat -> Nat

/-- The attempt loop of `kiss_receive_frame` (kissLIB.c lines 725-790):
each iteration calls `read` with destination offset `new_index` and
`dataLen = buffer_size`, adds `new_read` to `kiss->index` (line 731),
propagates a callback error (`ERROR_STATE`), then runs the scan.  When
the attempts are exhausted the function returns `NO_DATA_RECEIVED` with
the status still `RECEIVING`. -/
def rx_loop (oracle : Nat -> Nat × List Nat) :
    Nat -> Nat -> (Nat -> Nat) -> Nat -> Nat -> Bool -> RxFinal
  | 0, attempt, buf, index, _, _ =>
    ⟨KISS_ERR_NO_DATA_RECEIVED, index, KISS_STATUS_RECEIVING, attempt, buf⟩
  | r+1, attempt, buf, index, ni, fs =>
    match oracle attempt with
    | (e, bytes) =>
      let buf1 := writeBytes buf ni bytes
      let index1 := index + bytes.length
      if e ≠ KISS_OK then ⟨e, index1, KISS_STATUS_ERROR_STATE, attempt+1, buf1⟩
      else
        match rx_scan buf1 fs ni ni (index1 - ni) with
        | .ret err idx st b => ⟨err, idx, st, attempt+1, b⟩
        | .cont b fs2 ni2 => rx_loop oracle r (attempt+1) b index1 ni2 fs2

/-- `kiss_receive_frame` (kissLIB.c lines 692-793).  The NULL-pointer and
missing-callback guards are dropped (the model always has its oracle);
`maxAttempts == 0` is `INVALID_PARAMS` before anything is touched.
Otherwise `kiss->index = 0`, `Status = RECEIVING`, `frame_started = 0`,
`new_index = 0`, and the attempt loop runs. -/
def kiss_receive_frame (buf0 : Nat -> Nat) (index0 status0 : Nat)
    (oracle : Nat -> Nat × List Nat) (maxAttempts : Nat) : RxFinal :=
  if maxAttempts = 0 then ⟨KISS_ERR_INVALID_PARAMS, index0, status0, 0, buf0⟩
  else rx_loop oracle maxAttempts 0 buf0 0 0 false

/-! ## Helper lemmas about stuffing and the encode loop -/

theorem stuffByte_fend : stuffByte KISS_FEND = [KISS_FESC, KISS_TFEND] := by decide

theorem stuffByte_fesc : stuffByte KISS_FESC = [KISS_FESC, KISS_TFESC] := by decide

theorem stuffByte_other (b : Nat) (h1 : b ≠ KISS_FEND) (h2 : b ≠ KISS_FESC) :
    stuffByte b = [b] := by simp [stuffByte, h1, h2]

theorem stuff_cons (b : Nat) (rest : List Nat) :
    stuff (b :: rest) = stuffByte b ++ stuff rest := rfl

theorem stuff_append (A B : List Nat) : stuff (A ++ B) = stuff A ++ stuff B := by
  induction A with
  | nil => simp [stuff]
  | cons b rest ih => simp [stuff_cons, ih]

theorem stuffByte_length_le (b : Nat) : (stuffByte b).length ≤ 2 := by
  by_cases h1 : b = KISS_FEND
  · simp [h1, stuffByte_fend]
  · by_cases h2 : b = KISS_FESC
    · simp [h2, stuffByte_fesc]
    · simp [stuffByte_other b h1 h2]

theorem stuff_length_le (P : List Nat) : (stuff P).length ≤ 2 * P.length := by
  induction P with
  | nil => simp [stuff]
  | cons b rest ih =>
    have := stuffByte_length_le b
    simp only [stuff_cons, List.length_append, List.length_cons]
    omega

/-- If the capacity can absorb the worst case (two bytes per input byte), the
shared payload loop succeeds and appends exactly the stuffed data. -/
theorem enc_loop_ok (bs : Nat) (data : List Nat) :
    ∀ buf : List Nat, buf.length + 2 * data.length ≤ bs →
      kiss_encode_loop bs data buf = (KISS_OK, buf ++ stuff data) := by
  induction data with
  | nil => intro buf _; simp [kiss_encode_loop, stuff]
  | cons b rest ih =>
    intro buf h
    simp only [List.length_cons] at h
    rw [kiss_encode_loop.eq_def]
    dsimp only
    by_cases hb : b = KISS_FEND
    · rw [if_pos hb, if_neg (by omega), ih _ (by simp; omega)]
      simp [stuff_cons, hb, stuffByte_fend]
    · rw [if_neg hb]
      by_cases hb2 : b = KISS_FESC
      · rw [if_pos hb2, if_neg (by omega), ih _ (by simp; omega)]
        simp [stuff_cons, hb2, stuffByte_fesc]
      · rw [if_neg hb2, if_neg (by omega), ih _ (by simp; omega)]
        simp [stuff_cons, stuffByte_other b hb hb2]

/-- The shared payload loop never grows the buffer beyond the capacity:
every append is preceded by the corresponding capacity check. -/
theorem enc_loop_le (bs : Nat) (data : List Nat) :
    ∀ buf : List Nat, buf.length ≤ bs → (kiss_encode_loop bs data buf).2.length ≤ bs := by
  induction data with
  | nil => intro buf h; simpa [kiss_encode_loop]
  | cons b rest ih =>
    intro buf h
    rw [kiss_encode_loop.eq_def]
    dsimp only
    by_cases hb : b = KISS_FEND
    · rw [if_pos hb]
      by_cases hc : bs < buf.length + 2
      · rw [if_pos hc]; simpa
      · rw [if_neg hc]; exact ih _ (by simp; omega)
    · rw [if_neg hb]
      by_cases hb2 : b = KISS_FESC
      · rw [if_pos hb2]
        by_cases hc : bs < buf.length + 2
        · rw [if_pos hc]; simpa
        · rw [if_neg hc]; exact ih _ (by simp; omega)
      · rw [if_neg hb2]
        by_cases hc : bs < buf.length + 1
        · rw [if_pos hc]; simpa
        · rw [if_neg hc]; exact ih _ (by simp; omega)

/-- On a payload made only of the special bytes `FEND`/`FESC` the loop either
overflows or appends exactly two bytes per input byte. -/
theorem enc_loop_special (bs : Nat) (data : List Nat) :
    ∀ buf : List Nat, (∀ b ∈ data, b = KISS_FEND ∨ b = KISS_FESC) →
      (kiss_encode_loop bs data buf).1 = KISS_ERR_BUFFER_OVERFLOW ∨
      ((kiss_encode_loop bs data buf).1 = KISS_OK ∧
        (kiss_encode_loop bs data buf).2.length = buf.length + 2 * data.length) := by
  induction data with
  | nil => intro buf _; right; simp [kiss_encode_loop]
  | cons b rest ih =>
    intro buf hall
    have hb := hall b (by simp)
    have hrest : ∀ x ∈ rest, x = KISS_FEND ∨ x = KISS_FESC :=
      fun x hx => hall x (by simp [hx])
    rw [kiss_encode_loop.eq_def]
    dsimp only
    rcases hb with hb | hb
    · rw [if_pos hb]
      by_cases hc : bs < buf.length + 2
      · left; rw [if_pos hc]
      · rw [if_neg hc]
        rcases ih (buf ++ [KISS_FESC, KISS_TFEND]) hrest with h1 | h1
        · exact Or.inl h1
        · right
          refine ⟨h1.1, ?_⟩
          rw [h1.2]
          simp only [List.length_append, List.length_cons, List.length_nil]
          omega
    · rw [if_neg (by rw [hb]; decide), if_pos hb]
      by_cases hc : bs < buf.length + 2
      · left; rw [if_pos hc]
      · rw [if_neg hc]
        rcases ih (buf ++ [KISS_FESC, KISS_TFESC]) hrest with h1 | h1
        · exact Or.inl h1
        · right
          refine ⟨h1.1, ?_⟩
          rw [h1.2]
          simp only [List.length_append, List.length_cons, List.length_nil]
          omega

/-! ## Helper lemmas about the decode loop -/

theorem skipFend_fend (rest : List Nat) : skipFend (KISS_FEND :: rest) = skipFend rest := by
  simp [skipFend]

theorem skipFend_replicate (n : Nat) (rest : List Nat) :
    skipFend (List.replicate n KISS_FEND ++ rest) = skipFend rest := by
  induction n with
  | zero => simp
  | succ m ih => simpa [List.replicate_succ, skipFend_fend] using ih

theorem skipFend_cons_of_ne (b : Nat) (rest : List Nat) (hb : b ≠ KISS_FEND) :
    skipFend (b :: rest) = b :: rest := by
  simp [skipFend, hb]

/-- One stuffed byte with room in the output: the decode loop unstuffs it and
appends the raw byte. -/
theorem dec_loop_stuffByte (cap b : Nat) (src acc : List Nat) (h : acc.length < cap) :
    kiss_decode_loop cap (stuffByte b ++ src) acc = kiss_decode_loop cap src (acc ++ [b]) := by
  have hn : ¬ cap ≤ acc.length := by omega
  by_cases hb : b = KISS_FEND
  · rw [hb, stuffByte_fend]
    show kiss_decode_loop cap (KISS_FESC :: KISS_TFEND :: src) acc = _
    rw [kiss_decode_loop]
    simp only [if_neg hn]
    norm_num [KISS_FEND, KISS_FESC, KISS_TFEND, KISS_TFESC]
  · by_cases hb2 : b = KISS_FESC
    · rw [hb2, stuffByte_fesc]
      show kiss_decode_loop cap (KISS_FESC :: KISS_TFESC :: src) acc = _
      rw [kiss_decode_loop]
      simp only [if_neg hn]
      norm_num [KISS_FEND, KISS_FESC, KISS_TFEND, KISS_TFESC]
    · rw [stuffByte_other b hb hb2]
      show kiss_decode_loop cap (b :: src) acc = _
      rw [kiss_decode_loop.eq_def]
      dsimp only
      rw [if_neg hb, if_neg hb2, if_neg hn]

/-- One stuffed byte with the output buffer already full: the decode loop
returns `BUFFER_OVERFLOW` with the status untouched (`RECEIVED`). -/
theorem dec_loop_stuffByte_full (cap b : Nat) (src acc : List Nat) (h : cap ≤ acc.length) :
    kiss_decode_loop cap (stuffByte b ++ src) acc =
      (KISS_ERR_BUFFER_OVERFLOW, acc, KISS_STATUS_RECEIVED) := by
  by_cases hb : b = KISS_FEND
  · rw [hb, stuffByte_fend]
    show kiss_decode_loop cap (KISS_FESC :: KISS_TFEND :: src) acc = _
    rw [kiss_decode_loop]
    simp only [if_pos h]
    norm_num [KISS_FEND, KISS_FESC, KISS_TFEND, KISS_TFESC]
  · by_cases hb2 : b = KISS_FESC
    · rw [hb2, stuffByte_fesc]
      show kiss_decode_loop cap (KISS_FESC :: KISS_TFESC :: src) acc = _
      rw [kiss_decode_loop]
      simp only [if_pos h]
      norm_num [KISS_FEND, KISS_FESC, KISS_TFEND, KISS_TFESC]
    · rw [stuffByte_other b hb hb2]
      show kiss_decode_loop cap (b :: src) acc = _
      rw [kiss_decode_loop.eq_def]
      dsimp only
      rw [if_neg hb, if_neg hb2, if_pos h]

/-- Running the decode loop over a stuffed block that fits in the output is
the same as continuing after it with the raw block appended. -/
theorem dec_loop_cont (cap : Nat) (P : List Nat) :
    ∀ (acc tail : List Nat), acc.length + P.length ≤ cap →
      kiss_decode_loop cap (stuff P ++ tail) acc = kiss_decode_loop cap tail (acc ++ P) := by
  induction P with
  | nil => intro acc tail _; simp [stuff]
  | cons b rest ih =>
    intro acc tail h
    simp only [List.length_cons] at h
    have hstep : stuff (b :: rest) ++ tail = stuffByte b ++ (stuff rest ++ tail) := by
      simp [stuff_cons]
    rw [hstep, dec_loop_stuffByte cap b _ acc (by omega), ih _ tail (by simp; omega)]
    simp

/-- A stuffed block larger than the remaining output capacity makes the decode
loop fail with `BUFFER_OVERFLOW`, status untouched. -/
theorem dec_loop_overflow (cap : Nat) (P : List Nat) :
    ∀ (acc tail : List Nat), acc.length ≤ cap → cap < acc.length + P.length →
      (kiss_decode_loop cap (stuff P ++ tail) acc).1 = KISS_ERR_BUFFER_OVERFLOW ∧
      (kiss_decode_loop cap (stuff P ++ tail) acc).2.2 = KISS_STATUS_RECEIVED := by
  induction P with
  | nil => intro acc tail h1 h2; simp at h2; omega
  | cons b rest ih =>
    intro acc tail h1 h2
    simp only [List.length_cons] at h2
    have hstep : stuff (b :: rest) ++ tail = stuffByte b ++ (stuff rest ++ tail) := by
      simp [stuff_cons]
    rw [hstep]
    by_cases hfull : cap ≤ acc.length
    · rw [dec_loop_stuffByte_full cap b _ acc hfull]
      exact ⟨rfl, rfl⟩
    · rw [dec_loop_stuffByte cap b _ acc (by omega)]
      exact ih (acc ++ [b]) tail (by simp; omega) (by simp; omega)

theorem dec_loop_fend (cap : Nat) (rest acc : List Nat) :
    kiss_decode_loop cap (KISS_FEND :: rest) acc = (KISS_OK, acc, KISS_STATUS_RECEIVED) := by
  rw [kiss_decode_loop.eq_def]
  dsimp only
  rw [if_pos rfl]

theorem dec_loop_fesc_nil (cap : Nat) (acc : List Nat) :
    kiss_decode_loop cap [KISS_FESC] acc =
      (KISS_ERR_INVALID_FRAME, acc, KISS_STATUS_ERROR_STATE) := by
  rw [kiss_decode_loop]
  norm_num [KISS_FESC, KISS_FEND]

theorem dec_loop_badEscape (cap b : Nat) (rest acc : List Nat)
    (hb : b ≠ KISS_TFEND) (hb2 : b ≠ KISS_TFESC) :
    kiss_decode_loop cap (KISS_FESC :: b :: rest) acc =
      (KISS_ERR_INVALID_FRAME, acc, KISS_STATUS_ERROR_STATE) := by
  rw [kiss_decode_loop]
  rw [if_neg (by decide : ¬ KISS_FESC = KISS_FEND), if_pos rfl]
  rw [if_neg hb, if_neg hb2]

/-- Classification of the decode-loop exit: `KISS_OK` and `BUFFER_OVERFLOW`
leave the status `RECEIVED`; `INVALID_FRAME` switches it to `ERROR_STATE`;
no other return code exists. -/
theorem dec_loop_status (cap : Nat) (src acc : List Nat) :
    ((kiss_decode_loop cap src acc).1 = KISS_OK ∧
      (kiss_decode_loop cap src acc).2.2 = KISS_STATUS_RECEIVED) ∨
    ((kiss_decode_loop cap src acc).1 = KISS_ERR_BUFFER_OVERFLOW ∧
      (kiss_decode_loop cap src acc).2.2 = KISS_STATUS_RECEIVED) ∨
    ((kiss_decode_loop cap src acc).1 = KISS_ERR_INVALID_FRAME ∧
      (kiss_decode_loop cap src acc).2.2 = KISS_STATUS_ERROR_STATE) := by
  induction src, acc using kiss_decode_loop.induct cap with
  | case1 buf => left; simp [kiss_decode_loop]
  | case2 rest buf => left; simp [dec_loop_fend]
  | case3 buf h => right; right; simp [dec_loop_fesc_nil]
  | case4 buf rest hcap h =>
    right; left
    have heq := dec_loop_stuffByte_full cap KISS_FEND rest buf hcap
    rw [stuffByte_fend] at heq
    simp only [List.cons_append, List.nil_append] at heq
    simp [heq]
  | case5 buf rest hncap h ih =>
    have heq := dec_loop_stuffByte cap KISS_FEND rest buf (by omega)
    rw [stuffByte_fend] at heq
    simp only [List.cons_append, List.nil_append] at heq
    rw [heq]
    exact ih
  | case6 buf rest hcap h h2 =>
    right; left
    have heq := dec_loop_stuffByte_full cap KISS_FESC rest buf hcap
    rw [stuffByte_fesc] at heq
    simp only [List.cons_append, List.nil_append] at heq
    simp [heq]
  | case7 buf rest hncap h h2 ih =>
    have heq := dec_loop_stuffByte cap KISS_FESC rest buf (by omega)
    rw [stuffByte_fesc] at heq
    simp only [List.cons_append, List.nil_append] at heq
    rw [heq]
    exact ih
  | case8 buf b rest hb hb2 h =>
    right; right
    simp [dec_loop_badEscape cap b rest buf hb hb2]
  | case9 b rest buf hb hb2 hcap =>
    right; left
    have heq := dec_loop_stuffByte_full cap b rest buf hcap
    rw [stuffByte_other b hb hb2] at heq
    simp only [List.cons_append, List.nil_append] at heq
    simp [heq]
  | case10 b rest buf hb hb2 hncap ih =>
    have heq := dec_loop_stuffByte cap b rest buf (by omega)
    rw [stuffByte_other b hb hb2] at heq
    simp only [List.cons_append, List.nil_append] at heq
    rw [heq]
    exact ih

/-- A stuffed block followed by nothing decodes to the raw block. -/
theorem dec_loop_stuff_exact (cap : Nat) (P : List Nat) (hcap : P.length ≤ cap) :
    kiss_decode_loop cap (stuff P) [] = (KISS_OK, P, KISS_STATUS_RECEIVED) := by
  have h := dec_loop_cont cap P [] [] (by simpa using hcap)
  rw [List.append_nil] at h
  rw [h]
  simp [kiss_decode_loop]

/-- A stuffed block followed by the frame terminator decodes to the raw
block, stopping at the `FEND`. -/
theorem dec_loop_stuff_fend (cap : Nat) (P tail : List Nat) (hcap : P.length ≤ cap) :
    kiss_decode_loop cap (stuff P ++ KISS_FEND :: tail) [] =
      (KISS_OK, P, KISS_STATUS_RECEIVED) := by
  have h := dec_loop_cont cap P [] (KISS_FEND :: tail) (by simpa using hcap)
  rw [h, dec_loop_fend]
  simp

/-- `kiss_decode` on a buffer made of some leading `FEND` padding, a plain
(non-special) header byte and arbitrary remaining bytes reduces to the
payload loop on those bytes. -/
theorem kiss_decode_skip (k : Kiss) (cap n H : Nat) (rest : List Nat)
    (hst : k.status = KISS_STATUS_RECEIVED)
    (hbuf : k.buffer = List.replicate n KISS_FEND ++ H :: rest)
    (hF : H ≠ KISS_FEND) (hE : H ≠ KISS_FESC) :
    kiss_decode k cap = kiss_decode_payload cap H rest := by
  unfold kiss_decode
  rw [if_neg (by simp [hst])]
  rw [hbuf, skipFend_replicate, skipFend_cons_of_ne _ _ hF]
  dsimp only
  rw [if_neg hE, if_neg hF]

/-! ## Helper lemmas: successful encode and push paths -/

theorem kiss_headerBytes_len (H : Nat) :
    2 ≤ (kiss_headerBytes H).length ∧ (kiss_headerBytes H).length ≤ 3 := by
  unfold kiss_headerBytes
  split_ifs <;> simp

/-- Successful `kiss_encode`: with worst-case room for the stuffed payload,
the header bytes, the stuffed data and the terminator are laid out in order
and the status becomes `TRANSMITTING`. -/
theorem kiss_encode_ok (k : Kiss) (data : List Nat) (H : Nat)
    (hsz : 2 * data.length + 4 ≤ k.buffer_size) :
    kiss_encode k data H = (KISS_OK,
      { k with buffer := (kiss_headerBytes H ++ stuff data) ++ [KISS_FEND],
               status := KISS_STATUS_TRANSMITTING }) := by
  have hbs : ¬ k.buffer_size < 3 := by omega
  have hh := kiss_headerBytes_len H
  have hS := stuff_length_le data
  unfold kiss_encode
  rw [if_neg hbs]
  dsimp only
  rw [enc_loop_ok k.buffer_size data (kiss_headerBytes H) (by omega)]
  rw [if_neg (by simp)]
  rw [if_neg (by simp only [List.length_append]; omega)]

/-- Successful `kiss_push_encode` on a well-formed `TRANSMITTING` buffer:
the terminator is rewound, the stuffed data appended, the terminator
rewritten; the status is left `TRANSMITTING`. -/
theorem kiss_push_encode_ok (k : Kiss) (data pre : List Nat)
    (hst : k.status = KISS_STATUS_TRANSMITTING) (hdata : data ≠ [])
    (hbuf : k.buffer = pre ++ [KISS_FEND])
    (hsz : pre.length + 2 * data.length + 1 ≤ k.buffer_size) :
    kiss_push_encode k data =
      (KISS_OK, { k with buffer := (pre ++ stuff data) ++ [KISS_FEND] }) := by
  have hS := stuff_length_le data
  unfold kiss_push_encode
  rw [if_neg (by simp [hdata])]
  rw [if_neg (by rw [hst]; decide)]
  rw [if_neg (by simp [hst])]
  rw [if_neg (by simp [hbuf])]
  rw [if_pos (by rw [hbuf]; exact List.getLast?_concat _)]
  rw [hbuf, List.dropLast_concat]
  dsimp only
  rw [enc_loop_ok k.buffer_size data pre (by omega)]
  rw [if_neg (by simp)]
  rw [if_neg (by simp only [List.length_append]; omega)]

/-- Full classification of `kiss_decode` called in status `RECEIVED`. -/
theorem kiss_decode_cases (k : Kiss) (cap : Nat) (h : k.status = KISS_STATUS_RECEIVED) :
    ((kiss_decode k cap).err = KISS_OK ∧
      (kiss_decode k cap).status = KISS_STATUS_RECEIVED) ∨
    ((kiss_decode k cap).err = KISS_ERR_BUFFER_OVERFLOW ∧
      (kiss_decode k cap).status = KISS_STATUS_RECEIVED) ∨
    ((kiss_decode k cap).err = KISS_ERR_INVALID_FRAME ∧
      (kiss_decode k cap).status = KISS_STATUS_ERROR_STATE) := by
  unfold kiss_decode
  rw [if_neg (by simp [h])]
  cases hsk : skipFend k.buffer with
  | nil => right; right; exact ⟨rfl, rfl⟩
  | cons val rest =>
    dsimp only
    by_cases hv : val = KISS_FESC
    · rw [if_pos hv]
      cases rest with
      | nil => right; right; exact ⟨rfl, rfl⟩
      | cons v rest2 =>
        dsimp only
        by_cases hv2 : v = KISS_TFEND
        · rw [if_pos hv2]
          unfold kiss_decode_payload
          exact dec_loop_status cap rest2 []
        · rw [if_neg hv2]
          by_cases hv3 : v = KISS_TFESC
          · rw [if_pos hv3]
            unfold kiss_decode_payload
            exact dec_loop_status cap rest2 []
          · rw [if_neg hv3]
            right; right; exact ⟨rfl, rfl⟩
    · rw [if_neg hv]
      by_cases hvF : val = KISS_FEND
      · rw [if_pos hvF]
        left; exact ⟨rfl, rfl⟩
      · rw [if_neg hvF]
        unfold kiss_decode_payload
        exact dec_loop_status cap rest []

/-! ## Helper lemmas: the receive loop -/

/-- The inner scan only ever early-returns `KISS_OK` (complete frame,
status `RECEIVED`) or `KISS_ERR_INVALID_FRAME` (complete frame shorter
than 3 bytes). -/
theorem rx_scan_classify (steps : Nat) :
    ∀ (buf : Nat -> Nat) (fs : Bool) (ni i : Nat) (err idx st : Nat) (b : Nat -> Nat),
      rx_scan buf fs ni i steps = .ret err idx st b →
      err = KISS_OK ∨ err = KISS_ERR_INVALID_FRAME := by
  induction steps with
  | zero =>
    intro buf fs ni i err idx st b h
    rw [rx_scan] at h
    exact absurd h (by simp)
  | succ m ih =>
    intro buf fs ni i err idx st b h
    rw [rx_scan] at h
    cases fs with
    | false =>
      simp only [Bool.false_eq_true, if_false] at h
      by_cases hb : buf i = KISS_FEND
      · rw [if_pos hb] at h
        exact ih _ _ _ _ _ _ _ _ h
      · rw [if_neg hb] at h
        exact ih _ _ _ _ _ _ _ _ h
    | true =>
      simp only [if_true] at h
      by_cases hskip : 0 < i ∧ buf i = KISS_FEND ∧ ni ≤ 1
      · rw [if_pos hskip] at h
        exact ih _ _ _ _ _ _ _ _ h
      · rw [if_neg hskip] at h
        by_cases hb : buf i = KISS_FEND
        · rw [if_pos hb] at h
          by_cases hshort : ni + 1 < 3
          · rw [if_pos hshort] at h
            right
            cases h
            rfl
          · rw [if_neg hshort] at h
            left
            cases h
            rfl
        · rw [if_neg hb] at h
          exact ih _ _ _ _ _ _ _ _ h

/-- The attempt loop calls the oracle at most `r` more times, and — when
every read reports success — either returns an early scan result
(`KISS_OK` or `INVALID_FRAME`) or exhausts the budget with
`NO_DATA_RECEIVED` after exactly the remaining attempts. -/
theorem rx_loop_classify (oracle : Nat -> Nat × List Nat) :
    ∀ (r attempt : Nat) (buf : Nat -> Nat) (index ni : Nat) (fs : Bool),
      (rx_loop oracle r attempt buf index ni fs).attempts ≤ attempt + r ∧
      ((∀ a, a < attempt + r → (oracle a).1 = KISS_OK) →
        (rx_loop oracle r attempt buf index ni fs).err = KISS_OK ∨
        (rx_loop oracle r attempt buf index ni fs).err = KISS_ERR_INVALID_FRAME ∨
        ((rx_loop oracle r attempt buf index ni fs).err = KISS_ERR_NO_DATA_RECEIVED ∧
          (rx_loop oracle r attempt buf index ni fs).attempts = attempt + r)) := by
  intro r
  induction r with
  | zero =>
    intro attempt buf index ni fs
    constructor
    · rw [rx_loop]; simp
    · intro _
      right; right
      rw [rx_loop]
      exact ⟨rfl, by simp⟩
  | succ m ih =>
    intro attempt buf index ni fs
    rw [rx_loop]
    rcases ho : oracle attempt with ⟨e, bytes⟩
    dsimp only
    by_cases he : e ≠ KISS_OK
    · rw [if_pos he]
      constructor
      · dsimp only; omega
      · intro hall
        have h1 := hall attempt (by omega)
        rw [ho] at h1
        exact absurd h1 he
    · rw [if_neg he]
      rcases hs : rx_scan (writeBytes buf ni bytes) fs ni ni (index + bytes.length - ni) with
        ⟨err, idx, st, b⟩ | ⟨b, fs2, ni2⟩
      · constructor
        · dsimp only; omega
        · intro _
          rcases rx_scan_classify _ _ _ _ _ _ _ _ _ hs with h1 | h1
          · left; exact h1
          · right; left; exact h1
      · dsimp only
        have hIH := ih (attempt + 1) b (index + bytes.length) ni2 fs2
        constructor
        · have := hIH.1; omega
        · intro hall
          rcases hIH.2 (fun a ha => hall a (by omega)) with h1 | h1 | h1
          · left; exact h1
          · right; left; exact h1
          · right; right; exact ⟨h1.1, by omega⟩

/-! ## Claim theorems -/

/-- Claim C1 (code bug): the claimed round-trip through the CRC32 pair can
never even start.  On a perfectly valid input (1 KiB buffer, 2-byte payload,
data header) the plain `kiss_encode` succeeds, but `kiss_encode_crc32`
returns `KISS_ERR_INVALID_PARAMS` and leaves the status `NOTHING`: it sets
`Status = NOTHING` (kissLIB.c line 1404) before calling `kiss_push_encode`,
whose gate requires `TRANSMITTING`.  No CRC32 frame can therefore be
produced, so `decode(encode_crc32(P,H))` cannot return `(P, H)`. -/
theorem C1_encode_crc32_broken_eval :
    (kiss_encode ⟨[], 1024, KISS_STATUS_NOTHING⟩ [0x41, 0x42] 0).1 = KISS_OK ∧
    (kiss_encode_crc32 ⟨[], 1024, KISS_STATUS_NOTHING⟩ [0x41, 0x42] 0).1 =
      KISS_ERR_INVALID_PARAMS ∧
    ((kiss_encode_crc32 ⟨[], 1024, KISS_STATUS_NOTHING⟩ [0x41, 0x42] 0).2).status =
      KISS_STATUS_NOTHING := by decide

/-- Claim C2 (code bug): the invariant `index ≤ buffer_size` is violated by
`kiss_receive_frame`.  With `buffer_size = 3` the C code passes
`buffer_size` (not the remaining space) as `max_length` to the read
callback and accumulates `kiss->index += new_read`; a contract-honouring
callback that returns 3 bytes (none of them `FEND`) on each of 2 attempts
leaves `kiss->index = 6 > 3 = buffer_size` at return. -/
theorem C2_receive_frame_overrun_eval :
    (kiss_receive_frame (fun _ => 0) 0 0 (fun _ => (KISS_OK, [0, 0, 0])) 2).index = 6 ∧
    3 < (kiss_receive_frame (fun _ => 0) 0 0 (fun _ => (KISS_OK, [0, 0, 0])) 2).index ∧
    (kiss_receive_frame (fun _ => 0) 0 0 (fun _ => (KISS_OK, [0, 0, 0])) 2).err =
      KISS_ERR_NO_DATA_RECEIVED := by decide

/-- Claim C3 (code bug): `kiss_decode_crc32` never reaches the CRC
comparison.  It sets `Status = NOTHING` (kissLIB.c line 1473) and then calls
`kiss_decode`, whose gate requires `RECEIVED`; so on every frame — here a
received frame whose trailing four bytes are NOT the payload checksum, for
which the claim demands `Crc32Mismatch`(6)/`ReceivedError`(5) — it returns
`KISS_ERR_STATUS`(9) and status `ERROR_STATE`(6) instead. -/
theorem C3_decode_crc32_broken_eval :
    (kiss_decode_crc32
      ⟨[0xC0, 0x00, 0x41, 0x00, 0x00, 0x00, 0x00, 0xC0], 16, KISS_STATUS_RECEIVED⟩ 16).err =
      KISS_ERR_STATUS ∧
    (kiss_decode_crc32
      ⟨[0xC0, 0x00, 0x41, 0x00, 0x00, 0x00, 0x00, 0xC0], 16, KISS_STATUS_RECEIVED⟩ 16).status =
      KISS_STATUS_ERROR_STATE := by decide

/-- Claim C4, counterexample: encoding `[01] ++ [02]` with
`kiss_encode_crc32` and encoding `[01]` with `kiss_encode_crc32` followed by
`kiss_push_encode [02]` leave different buffers (the claim says they are
byte-identical).  `kiss_push_encode` contains no CRC rewind/recompute logic
at all, and `kiss_encode_crc32` additionally fails before appending any
CRC. -/
theorem C4_counterexample :
    ((kiss_push_encode
        (kiss_encode_crc32 ⟨[], 32, KISS_STATUS_NOTHING⟩ [0x01] 0).2 [0x02]).2).buffer ≠
    ((kiss_encode_crc32 ⟨[], 32, KISS_STATUS_NOTHING⟩ [0x01, 0x02] 0).2).buffer := by decide

/-- Claim C4, amended: the incremental equivalence holds for the plain
(no-CRC) encoder.  For every instance, all payload blocks `A` and non-empty
`B` and every header, when the buffer has worst-case room
(`2*(|A|+|B|) + 4` bytes), `kiss_encode` of `A` followed by
`kiss_push_encode` of `B` returns the same error code and the same final
instance — byte-identical buffer included — as `kiss_encode` of `A ++ B`. -/
theorem C4_amended (k : Kiss) (A B : List Nat) (H : Nat)
    (hB : B ≠ []) (hsz : 2 * (A.length + B.length) + 4 ≤ k.buffer_size) :
    kiss_push_encode (kiss_encode k A H).2 B = kiss_encode k (A ++ B) H := by
  have hBlen : 1 ≤ B.length := List.length_pos.mpr hB
  have hSA := stuff_length_le A
  have hSB := stuff_length_le B
  have hh := kiss_headerBytes_len H
  rw [kiss_encode_ok k A H (by omega)]
  dsimp only
  rw [kiss_push_encode_ok _ B (kiss_headerBytes H ++ stuff A) rfl hB rfl
    (by simp only [List.length_append]; omega)]
  rw [kiss_encode_ok k (A ++ B) H (by simp only [List.length_append]; omega)]
  simp [stuff_append, List.append_assoc]

/-- Witness for C4: the amended equivalence at `A = [01]`, `B = [02]`,
header `0`, buffer size 32. -/
theorem C4_witness :
    kiss_push_encode (kiss_encode ⟨[], 32, KISS_STATUS_NOTHING⟩ [0x01] 0).2 [0x02] =
      kiss_encode ⟨[], 32, KISS_STATUS_NOTHING⟩ ([0x01] ++ [0x02]) 0 :=
  C4_amended ⟨[], 32, KISS_STATUS_NOTHING⟩ [0x01] [0x02] 0 (by simp) (by decide)

/-- Claim C5, counterexample: a failing `kiss_decode` call (illegal escape
`DB 00` inside the frame, instance in status `RECEIVED`) does NOT set the
status to `ReceivedError` as the claim demands — the error branch sets
`ERROR_STATE`(6) instead of `RECEIVED_ERROR`(5). -/
theorem C5_counterexample :
    (kiss_decode ⟨[0xC0, 0x01, 0xDB, 0x00, 0xC0], 8, KISS_STATUS_RECEIVED⟩ 8).err ≠ KISS_OK ∧
    (kiss_decode ⟨[0xC0, 0x01, 0xDB, 0x00, 0xC0], 8, KISS_STATUS_RECEIVED⟩ 8).status ≠
      KISS_STATUS_RECEIVED_ERROR := by decide

/-- Claim C5, amended: `kiss_decode` is gated on status `RECEIVED` — any
other status fails with `KISS_ERR_STATUS` without decoding and without
changing the state.  Called in `RECEIVED`: success leaves the status
`RECEIVED`; an invalid frame or bad escape sets `ERROR_STATE` (not
`RECEIVED_ERROR`); an output-buffer overflow returns `BUFFER_OVERFLOW`
leaving the status `RECEIVED` (not `RECEIVED_ERROR`). -/
theorem C5_amended (k : Kiss) (cap : Nat) :
    (k.status ≠ KISS_STATUS_RECEIVED →
      kiss_decode k cap = ⟨KISS_ERR_STATUS, [], none, k.status⟩) ∧
    (k.status = KISS_STATUS_RECEIVED →
      ((kiss_decode k cap).err = KISS_OK →
        (kiss_decode k cap).status = KISS_STATUS_RECEIVED) ∧
      ((kiss_decode k cap).err = KISS_ERR_INVALID_FRAME →
        (kiss_decode k cap).status = KISS_STATUS_ERROR_STATE) ∧
      ((kiss_decode k cap).err = KISS_ERR_BUFFER_OVERFLOW →
        (kiss_decode k cap).status = KISS_STATUS_RECEIVED)) := by
  constructor
  · intro h
    unfold kiss_decode
    rw [if_pos h]
  · intro h
    rcases kiss_decode_cases k cap h with h1 | h1 | h1
    · refine ⟨fun _ => h1.2, fun he => ?_, fun he => ?_⟩
      · exact absurd (h1.1.symm.trans he) (by decide)
      · exact absurd (h1.1.symm.trans he) (by decide)
    · refine ⟨fun he => ?_, fun he => ?_, fun _ => h1.2⟩
      · exact absurd (h1.1.symm.trans he) (by decide)
      · exact absurd (h1.1.symm.trans he) (by decide)
    · refine ⟨fun he => ?_, fun _ => h1.2, fun he => ?_⟩
      · exact absurd (h1.1.symm.trans he) (by decide)
      · exact absurd (h1.1.symm.trans he) (by decide)

/-- Witness for C5: the amended status discipline applied to the bad-escape
frame — the invalid-frame failure lands in `ERROR_STATE`. -/
theorem C5_witness :
    (kiss_decode ⟨[0xC0, 0x01, 0xDB, 0x00, 0xC0], 8, KISS_STATUS_RECEIVED⟩ 8).status =
      KISS_STATUS_ERROR_STATE :=
  ((C5_amended ⟨[0xC0, 0x01, 0xDB, 0x00, 0xC0], 8, KISS_STATUS_RECEIVED⟩ 8).2 rfl).2.1
    (by decide)

/-- Claim C6, counterexample: a buffer of 5 bytes is smaller than
`3 + 2*len = 7` for the 2-byte payload `41 42`, yet `kiss_encode` succeeds
(nothing needs stuffing, so 5 bytes suffice) — the claim says it
deterministically returns `BufferOverflow`. -/
theorem C6_counterexample :
    (kiss_encode ⟨[], 5, KISS_STATUS_NOTHING⟩ [0x41, 0x42] 0).1 = KISS_OK ∧
    (5 : Nat) < 3 + 2 * ([0x41, 0x42] : List Nat).length := by decide

/-- Claim C6, amended: (1) `kiss_encode` never writes at or beyond
`buffer_size` — the buffer grows only by guarded appends, so its final
length (every write happens at index "current length") stays within the
capacity; (2) for worst-case payloads, i.e. payloads consisting only of the
special bytes `FEND`/`FESC`, a working buffer smaller than `3 + 2*len`
deterministically yields `KISS_ERR_BUFFER_OVERFLOW`. -/
theorem C6_amended (k : Kiss) (data : List Nat) (header : Nat) :
    (k.buffer.length ≤ k.buffer_size →
      ((kiss_encode k data header).2).buffer.length ≤ k.buffer_size) ∧
    ((∀ b ∈ data, b = KISS_FEND ∨ b = KISS_FESC) →
      k.buffer_size < 3 + 2 * data.length →
      (kiss_encode k data header).1 = KISS_ERR_BUFFER_OVERFLOW) := by
  unfold kiss_encode
  by_cases hbs : k.buffer_size < 3
  · rw [if_pos hbs]
    exact ⟨fun h => h, fun _ _ => rfl⟩
  · rw [if_neg hbs]
    dsimp only
    have hlen : 2 ≤ (kiss_headerBytes header).length ∧ (kiss_headerBytes header).length ≤ 3 :=
      kiss_headerBytes_len header
    constructor
    · intro hk
      have hle := enc_loop_le k.buffer_size data (kiss_headerBytes header) (by omega)
      by_cases he : (kiss_encode_loop k.buffer_size data (kiss_headerBytes header)).1 ≠ KISS_OK
      · rw [if_pos he]; exact hle
      · rw [if_neg he]
        by_cases hterm : k.buffer_size <
            (kiss_encode_loop k.buffer_size data (kiss_headerBytes header)).2.length + 1
        · rw [if_pos hterm]; exact hle
        · rw [if_neg hterm]
          simp only [List.length_append, List.length_cons, List.length_nil]
          omega
    · intro hall hsmall
      rcases enc_loop_special k.buffer_size data (kiss_headerBytes header) hall with hsp | hsp
      · rw [if_pos (by rw [hsp]; decide)]
        exact hsp
      · rw [if_neg (by rw [hsp.1]; simp)]
        rw [if_pos (by rw [hsp.2]; omega)]

/-- Witness for C6: all-special payload `C0 C0` into a 4-byte buffer
(`4 < 3 + 2*2`) overflows. -/
theorem C6_witness :
    (kiss_encode ⟨[], 4, KISS_STATUS_NOTHING⟩ [0xC0, 0xC0] 0).1 = KISS_ERR_BUFFER_OVERFLOW :=
  (C6_amended ⟨[], 4, KISS_STATUS_NOTHING⟩ [0xC0, 0xC0] 0).2 (by decide) (by decide)

/-- Claim C7, counterexample: the block `FF FF FF FF` drives the running
(uncomplemented) CRC state to exactly `0`, so passing it to the next
`kiss_crc32_push` call re-seeds the computation to `0xFFFFFFFF` and the
composition law fails: complementing
`kiss_crc32_push (kiss_crc32_push 0 A) B` does not give
`kiss_crc32 (A ++ B)` for `A = FF FF FF FF`, `B = 00`. -/
theorem C7_counterexample :
    kiss_crc32_push (kiss_crc32_push 0 [0xFF, 0xFF, 0xFF, 0xFF]) [0x00] ^^^ 0xFFFFFFFF ≠
      kiss_crc32 ([0xFF, 0xFF, 0xFF, 0xFF] ++ [0x00]) := by decide

/-- Claim C7, amended: whenever the intermediate uncomplemented value
`kiss_crc32_push 0 A` is non-zero (so the `0`-means-restart convention does
not fire), continuing with `kiss_crc32_push` on `B` and complementing the
result equals the one-shot `kiss_crc32` of `A ++ B`. -/
theorem C7_amended (A B : List Nat) (h : kiss_crc32_push 0 A ≠ 0) :
    kiss_crc32_push (kiss_crc32_push 0 A) B ^^^ 0xFFFFFFFF = kiss_crc32 (A ++ B) := by
  have h0 : kiss_crc32_push 0 A = A.foldl crc32_step 0xFFFFFFFF := by
    unfold kiss_crc32_push
    rw [if_pos rfl]
  rw [kiss_crc32_push, if_neg h, h0, kiss_crc32, List.foldl_append]

/-- Witness for C7: the amended composition law at `A = [01]`, `B = [02]`. -/
theorem C7_witness :
    kiss_crc32_push 0 [0x01] ≠ 0 ∧
    kiss_crc32_push (kiss_crc32_push 0 [0x01]) [0x02] ^^^ 0xFFFFFFFF =
      kiss_crc32 ([0x01] ++ [0x02]) :=
  ⟨by decide, C7_amended [0x01] [0x02] (by decide)⟩

/-- Claim C8: for every `maxAttempts > 0`, `kiss_receive_frame` invokes the
read callback at most `maxAttempts` times; and when every read reports
success, a run that assembled no complete delimited frame — i.e. that
returned neither `KISS_OK` (complete frame received) nor
`KISS_ERR_INVALID_FRAME` (a complete but too-short frame) — returns
`KISS_ERR_NO_DATA_RECEIVED`. -/
theorem C8_attempt_budget (buf0 : Nat -> Nat) (index0 status0 : Nat)
    (oracle : Nat -> Nat × List Nat) (maxAttempts : Nat) (hm : 0 < maxAttempts) :
    (kiss_receive_frame buf0 index0 status0 oracle maxAttempts).attempts ≤ maxAttempts ∧
    ((∀ a, a < maxAttempts → (oracle a).1 = KISS_OK) →
      (kiss_receive_frame buf0 index0 status0 oracle maxAttempts).err ≠ KISS_OK →
      (kiss_receive_frame buf0 index0 status0 oracle maxAttempts).err ≠
        KISS_ERR_INVALID_FRAME →
      (kiss_receive_frame buf0 index0 status0 oracle maxAttempts).err =
        KISS_ERR_NO_DATA_RECEIVED) := by
  unfold kiss_receive_frame
  rw [if_neg (by omega)]
  have h := rx_loop_classify oracle maxAttempts 0 buf0 0 0 false
  constructor
  · simpa using h.1
  · intro hall hne1 hne2
    rcases h.2 (by simpa using hall) with h1 | h1 | h1
    · exact absurd h1 hne1
    · exact absurd h1 hne2
    · exact h1.1

/-- Witness for C8: a transport that always succeeds but returns no bytes
stays within the 2-attempt budget and yields `NO_DATA_RECEIVED`. -/
theorem C8_witness :
    (kiss_receive_frame (fun _ => 0) 0 0 (fun _ => (KISS_OK, [])) 2).attempts ≤ 2 ∧
    (kiss_receive_frame (fun _ => 0) 0 0 (fun _ => (KISS_OK, [])) 2).err =
      KISS_ERR_NO_DATA_RECEIVED :=
  ⟨(C8_attempt_budget (fun _ => 0) 0 0 (fun _ => (KISS_OK, [])) 2 (by decide)).1,
    (C8_attempt_budget (fun _ => 0) 0 0 (fun _ => (KISS_OK, [])) 2 (by decide)).2
      (fun _ _ => rfl) (by decide) (by decide)⟩

/-- Claim C9: a buffer whose valid bytes are a leading `FEND` run, a plain
(non-special) header byte and a well-stuffed remainder WITHOUT a closing
`FEND` decodes successfully in status `RECEIVED`: `kiss_decode` returns
`KISS_OK`, the full unstuffed remainder as the payload and the header — a
missing closing delimiter is never reported as `InvalidFrame` (the payload
loop simply stops at the end of the valid bytes). -/
theorem C9_no_terminator_ok (k : Kiss) (P : List Nat) (n H cap : Nat)
    (hst : k.status = KISS_STATUS_RECEIVED)
    (hbuf : k.buffer = List.replicate n KISS_FEND ++ H :: stuff P)
    (hF : H ≠ KISS_FEND) (hE : H ≠ KISS_FESC) (hcap : P.length ≤ cap) :
    kiss_decode k cap = ⟨KISS_OK, P, some H, KISS_STATUS_RECEIVED⟩ := by
  rw [kiss_decode_skip k cap n H (stuff P) hst hbuf hF hE]
  unfold kiss_decode_payload
  rw [dec_loop_stuff_exact cap P hcap]

/-- Witness for C9: the unterminated frame `C0 01 02 DB DC` decodes to
header `01` and payload `02 C0`. -/
theorem C9_witness :
    kiss_decode ⟨[0xC0, 0x01, 0x02, 0xDB, 0xDC], 8, KISS_STATUS_RECEIVED⟩ 8 =
      ⟨KISS_OK, [0x02, 0xC0], some 0x01, KISS_STATUS_RECEIVED⟩ :=
  C9_no_terminator_ok ⟨[0xC0, 0x01, 0x02, 0xDB, 0xDC], 8, KISS_STATUS_RECEIVED⟩
    [0x02, 0xC0] 1 0x01 8 rfl (by decide) (by decide) (by decide) (by decide)

/-- Claim C10: `kiss_extract_param` decodes through its fixed 256-byte
stack scratch buffer.  For a received `SET_PARAM` frame with raw decoded
payload `P` (ID included): if `P` exceeds 256 bytes the call returns
`KISS_ERR_BUFFER_OVERFLOW` for every caller-supplied `max_param_size`;
if `P` fits (and `max_param_size > 0`) the call succeeds with the
little-endian ID from the first two bytes and the value truncated to
`max_param_size` bytes (`param_length = min (|P| - 2) max_param_size`). -/
theorem C10_extract_param_scratch (k : Kiss) (P : List Nat) (mps : Nat)
    (hst : k.status = KISS_STATUS_RECEIVED)
    (hbuf : k.buffer = KISS_FEND :: KISS_HEADER_SET_PARAM :: (stuff P ++ [KISS_FEND]))
    (hlen : 2 ≤ P.length) (hmps : 0 < mps) :
    (256 < P.length → (kiss_extract_param k mps).err = KISS_ERR_BUFFER_OVERFLOW) ∧
    (P.length ≤ 256 → kiss_extract_param k mps =
      ⟨KISS_OK, P.getD 0 0 ||| (P.getD 1 0 <<< 8), (P.drop 2).take mps,
        min (P.length - 2) mps⟩) := by
  have hbuf' : k.buffer =
      List.replicate 1 KISS_FEND ++ KISS_HEADER_SET_PARAM :: (stuff P ++ [KISS_FEND]) := by
    simpa using hbuf
  have hdec := kiss_decode_skip k 256 1 KISS_HEADER_SET_PARAM (stuff P ++ [KISS_FEND])
    hst hbuf' (by decide) (by decide)
  constructor
  · intro hbig
    have hovf := dec_loop_overflow 256 P [] [KISS_FEND] (by simp) (by simpa using hbig)
    unfold kiss_extract_param
    rw [if_neg (by simp [hst]), hdec]
    unfold kiss_decode_payload
    dsimp only
    rw [hovf.1]
    rw [if_pos (by decide)]
  · intro hsmall
    have hloop := dec_loop_stuff_fend 256 P [] hsmall
    unfold kiss_extract_param
    rw [if_neg (by simp [hst]), hdec]
    unfold kiss_decode_payload
    dsimp only
    rw [hloop]
    dsimp only
    rw [if_neg (by decide)]
    rw [if_neg (by simp; omega)]
    rw [if_pos hmps]

/-- Witness for C10: a 257-byte decoded payload makes `kiss_extract_param`
return `BUFFER_OVERFLOW` even with a small `max_param_size`. -/
theorem C10_witness :
    (kiss_extract_param
      ⟨KISS_FEND :: KISS_HEADER_SET_PARAM :: (stuff (List.replicate 257 0) ++ [KISS_FEND]),
        1024, KISS_STATUS_RECEIVED⟩ 5).err = KISS_ERR_BUFFER_OVERFLOW :=
  (C10_extract_param_scratch _ (List.replicate 257 0) 5 rfl rfl
    (by simp only [List.length_replicate]; omega) (by decide)).1
    (by simp only [List.length_replicate]; omega)

end KissLib
